import Mathlib

/-!
# Shallow embedding of gtsam TriangulationFactor

This file embeds `gtsam/geometry/TriangulationFactor.h` (the single source
file of the repository) in Lean 4 and proves the specified properties of
its operations: construction, `evaluateError`, `linearize`, `equals` and
`clone`.

Numeric values are modelled with exact rationals `ℚ`; the machinery the
factor consumes as black boxes (camera projection, noise-model whitening,
the activity predicate, key formatting) is not part of the source fragment
and is modelled from the specification, as marked on each definition.
-/

deriving instance DecidableEq for Except

/-- A variable key (`gtsam::Key`), an opaque identifier of the unknown
3D point. -/
abbrev Key := Nat

/-- A 2D point (`gtsam::Point2`), used for pixel measurements. -/
structure Point2 where
  x : ℚ
  y : ℚ
  deriving DecidableEq

/-- A 3D point (`gtsam::Point3`), the unknown landmark. -/
structure Point3 where
  x : ℚ
  y : ℚ
  z : ℚ
  deriving DecidableEq

/-- A 2-component vector, the residual type (`Vector` of dimension 2;
`Point2::vector()` produces it). -/
structure Vec2 where
  c0 : ℚ
  c1 : ℚ
  deriving DecidableEq

/-- A 2×3 matrix: the Jacobian of projection with respect to the point
(`OptionalJacobian<2,3>` target / the scratch matrix `A`). -/
structure Mat23 where
  m00 : ℚ
  m01 : ℚ
  m02 : ℚ
  m10 : ℚ
  m11 : ℚ
  m12 : ℚ
  deriving DecidableEq

/-- The zero 2×3 matrix (`Z_2x3`). -/
def Mat23.zero : Mat23 := ⟨0, 0, 0, 0, 0, 0⟩

/-- The zero 2-vector. -/
def Vec2.zero : Vec2 := ⟨0, 0⟩

/-- Componentwise negation of a 2-vector. -/
def Vec2.neg (v : Vec2) : Vec2 := ⟨-v.c0, -v.c1⟩

/-- `Point2` difference (used for `project(point) - measured_`). -/
def Point2.sub (p q : Point2) : Point2 := ⟨p.x - q.x, p.y - q.y⟩

/-- `Point2::vector()`: view a 2D point as a 2-vector. -/
def Point2.toVector (p : Point2) : Vec2 := ⟨p.x, p.y⟩

/-- `CheiralityException`: the error signalled by the projection
capability when the point lies behind the camera's image plane.  The
`what` field models the exception's diagnostic text (`e.what()`). -/
structure CheiralityException where
  what : String
  deriving DecidableEq

/-- Modelled from the spec: the camera is an external black box providing
`project(point) -> (pixel2D, 2x3 Jacobian)`, failing with a
`CheiralityException` when the point is behind the camera's image plane.
`fx` is the focal-length scale (`camera_.calibration().fx()`), used by the
degenerate fallback residual; `params` is the camera's immutable numeric
snapshot (pose + calibration), used only by tolerance-based equality. -/
structure Camera where
  project : Point3 → Except CheiralityException (Point2 × Mat23)
  fx : ℚ
  params : List ℚ

/-- Modelled from the spec: the noise/uncertainty model is an external
black box of a fixed dimension providing `whitenSystem (A, b)`, which
rescales a linear system by measurement covariance.  `params` is its
immutable numeric data, used only by tolerance-based equality. -/
structure NoiseModel where
  dim : Nat
  params : List ℚ
  whitenSystem : Mat23 → Vec2 → Mat23 × Vec2

/-- Modelled from the spec: the external values store
(`valuesStore.lookup(key) -> Point3`, fails if the key is absent),
embedded as an association list from keys to 3D points. -/
def Values := List (Key × Point3)

/-- Lookup of a key in the values store; `none` models the lookup
failure for an absent key. -/
def Values.at? (x : Values) (k : Key) : Option Point3 :=
  match x with
  | [] => none
  | (k2, p) :: rest => if k2 = k then some p else Values.at? rest k

/-- Componentwise closeness of two rational lists within a tolerance,
the numeric-tolerance comparison underlying the external `equals`
capabilities of camera, measurement and noise model. -/
def listClose : List ℚ → List ℚ → ℚ → Bool
  | [], [], _ => true
  | a :: as, b :: bs, tol => decide (|a - b| ≤ tol) && listClose as bs tol
  | _, _, _ => false

/-- The TriangulationFactor (`TriangulationFactor<CALIBRATION>` for a
fixed concrete calibration type): an immutable camera snapshot, a 2D
measurement, the base data (optional noise model, single variable key)
and the two cheirality policy flags.  The activity predicate `active`
is, per the spec, an externally defined capability. -/
structure TriangulationFactor where
  camera : Camera
  measured : Point2
  noiseModel : Option NoiseModel
  key : Key
  throwCheirality : Bool
  verboseCheirality : Bool
  active : Values → Bool

/-- The construction-time error: `std::invalid_argument`. -/
inductive ConstructionError where
  | invalidArgument (msg : String)
  deriving DecidableEq

/-- Modelled from the spec: the base default for the externally defined
activity predicate reports every assignment active. -/
def defaultActive : Values → Bool := fun _ => true

/-- The constructor of `TriangulationFactor`: stores camera, measurement,
noise model, key and the two flags, and fails with `invalid_argument`
when a noise model is supplied whose dimension is not 2
(`if (model && model->dim() != 2) throw std::invalid_argument(...)`).
On failure no object is produced. -/
def TriangulationFactor.make (camera : Camera) (measured : Point2)
    (model : Option NoiseModel) (pointKey : Key)
    (throwCheirality : Bool) (verboseCheirality : Bool) :
    Except ConstructionError TriangulationFactor :=
  match model with
  | some m =>
    if m.dim ≠ 2 then
      .error (.invalidArgument
        "TriangulationFactor must be created with 2-dimensional noise model.")
    else
      .ok ⟨camera, measured, some m, pointKey, throwCheirality,
        verboseCheirality, defaultActive⟩
  | none =>
      .ok ⟨camera, measured, none, pointKey, throwCheirality,
        verboseCheirality, defaultActive⟩

/-- Modelled from the spec: `DefaultKeyFormatter` renders a key for the
diagnostic message naming the offending variable. -/
def defaultKeyFormat (k : Key) : String := toString k

/-- The diagnostic line printed on a cheirality failure when
`verboseCheirality_` is set:
`e.what() << ": Landmark " << DefaultKeyFormatter(key()) << " moved behind camera"`. -/
def cheiralityLogMessage (e : CheiralityException) (k : Key) : String :=
  e.what ++ ": Landmark " ++ defaultKeyFormat k ++ " moved behind camera"

/-- The observable outcome of one `evaluateError` call: the returned
value or propagated exception, the final contents of the optional
Jacobian out-parameter `H2` (written even on the rethrow path), and the
diagnostic lines emitted to the log sink. -/
structure EvalOutcome where
  result : Except CheiralityException Vec2
  jacobian : Option Mat23
  log : List String

/-- `TriangulationFactor::evaluateError(point, H2)`.
On projection success it returns `project(point) - measured_` as a
2-vector and, when requested, the projection Jacobian unchanged.  On a
`CheiralityException`: the requested Jacobian is set to `Z_2x3`; if
`verboseCheirality_` the diagnostic line is printed; if
`throwCheirality_` the same exception is rethrown; otherwise the
fallback residual `ones(2) * 2.0 * camera_.calibration().fx()` is
returned. -/
def TriangulationFactor.evaluateError (f : TriangulationFactor)
    (point : Point3) (requestJacobian : Bool) : EvalOutcome :=
  match f.camera.project point with
  | .ok (pixel, H) =>
    { result := .ok (pixel.sub f.measured).toVector
      jacobian := if requestJacobian then some H else none
      log := [] }
  | .error e =>
    { result :=
        if f.throwCheirality then .error e
        else .ok ⟨2 * f.camera.fx, 2 * f.camera.fx⟩
      jacobian := if requestJacobian then some Mat23.zero else none
      log := if f.verboseCheirality then [cheiralityLogMessage e f.key] else [] }

/-- The per-instance scratch buffers of `linearize`
(`mutable VerticalBlockMatrix Ab; mutable Matrix A; mutable Vector b;`).
`none` models the not-yet-allocated state (`Ab.rows() == 0`; `A`, `b`
empty); Eigen leaves resized storage unspecified, so allocation in the
model fills zeros, and no property observes pre-assignment contents. -/
structure Scratch where
  Ab : Option (Mat23 × Vec2)
  A : Option Mat23
  b : Option Vec2
  deriving DecidableEq

/-- The scratch state of a freshly constructed factor: nothing
allocated. -/
def Scratch.init : Scratch := ⟨none, none, none⟩

/-- The lazy allocation step of `linearize`: if `Ab.rows() == 0`,
allocate `Ab` as a 2-row block matrix with one 3-wide block plus the
right-hand-side column, and resize `A` to 2×3 and `b` to 2. -/
def Scratch.allocate (scr : Scratch) : Scratch :=
  if scr.Ab.isSome then scr
  else ⟨some (Mat23.zero, Vec2.zero), some Mat23.zero, some Vec2.zero⟩

/-- The linear factor produced by `linearize`: a `JacobianFactor` built
from the factor's key list and the block matrix `Ab` whose blocks are
the (possibly whitened) Jacobian `A` and right-hand side `b`. -/
structure JacobianFactor where
  keys : List Key
  A : Mat23
  b : Vec2
  deriving DecidableEq

/-- The errors that can propagate out of `linearize`: the values store's
lookup failure for an absent key (`ValuesKeyNotFound`), and the
projection capability's `CheiralityException`, which `linearize` (unlike
`evaluateError`) does not catch. -/
inductive LinearizeError where
  | valuesKeyNotFound (k : Key)
  | cheirality (e : CheiralityException)
  deriving DecidableEq

/-- Whitening application of `linearize`:
`if (noiseModel_) this->noiseModel_->WhitenSystem(A, b);` —
the noise model's whitening transform is applied iff a model is
present. -/
def applyNoise (model : Option NoiseModel) (A : Mat23) (b : Vec2) :
    Mat23 × Vec2 :=
  match model with
  | some m => m.whitenSystem A b
  | none => (A, b)

/-- `TriangulationFactor::linearize(x)`.  Returns the empty result when
the factor is inactive; otherwise lazily allocates the scratch buffers,
looks up the point at the factor's key (the lookup failure propagates),
calls projection once for both the pixel and the Jacobian `A`
(a `CheiralityException` propagates: there is no handler here), sets
`b = -(project(point) - measured_)`, whitens `(A, b)` iff a noise model
is present, writes the blocks `Ab(0) = A`, `Ab(1) = b` and returns
`JacobianFactor(keys_, Ab)`.  The returned pair carries the result and
the instance's updated scratch state. -/
def TriangulationFactor.linearize (f : TriangulationFactor)
    (scr : Scratch) (x : Values) :
    Except LinearizeError (Option JacobianFactor) × Scratch :=
  if f.active x = false then (.ok none, scr)
  else
    let scr1 := scr.allocate
    match Values.at? x f.key with
    | none => (.error (.valuesKeyNotFound f.key), scr1)
    | some point =>
      match f.camera.project point with
      | .error e => (.error (.cheirality e), scr1)
      | .ok (pixel, H) =>
        let b0 := ((pixel.sub f.measured).toVector).neg
        let Awb := applyNoise f.noiseModel H b0
        (.ok (some ⟨[f.key], Awb.1, Awb.2⟩),
         ⟨some (Awb.1, Awb.2), some Awb.1, some Awb.2⟩)

/-- Closeness of two 2D points within a tolerance
(`Point2::equals(q, tol)`). -/
def Point2.close (p q : Point2) (tol : ℚ) : Bool :=
  decide (|p.x - q.x| ≤ tol) && decide (|p.y - q.y| ≤ tol)

/-- Modelled from the spec: camera equality within a tolerance compares
the immutable numeric snapshot (focal scale, pose + calibration data). -/
def Camera.close (c d : Camera) (tol : ℚ) : Bool :=
  listClose (c.fx :: c.params) (d.fx :: d.params) tol

/-- Modelled from the spec: noise-model equality within a tolerance
compares dimension and numeric data. -/
def NoiseModel.close (m n : NoiseModel) (tol : ℚ) : Bool :=
  (m.dim == n.dim) && listClose m.params n.params tol

/-- Equality of the optional noise models: both absent, or both present
and close. -/
def optNoiseClose : Option NoiseModel → Option NoiseModel → ℚ → Bool
  | none, none, _ => true
  | some m, some n, tol => NoiseModel.close m n tol
  | _, _, _ => false

/-- Modelled from the spec: `Base::equals` (the `NoiseModelFactor1`
part) compares the key lists and the noise models within the
tolerance. -/
def baseEquals (f e : TriangulationFactor) (tol : ℚ) : Bool :=
  (f.key == e.key) && optNoiseClose f.noiseModel e.noiseModel tol

/-- The polymorphic `NonlinearFactor` argument of `equals`: either a
`TriangulationFactor` of the same concrete calibration type (the only
case in which `dynamic_cast<const This*>` succeeds), a
`TriangulationFactor` instantiated at a different calibration type, or
some other factor class carrying its own base data. -/
inductive NonlinearFactor where
  | tri (f : TriangulationFactor)
  | triOtherCalibration (f : TriangulationFactor)
  | otherFactor (keys : List Key) (noiseModel : Option NoiseModel)

/-- `dynamic_cast<const This*>(&p)`: succeeds exactly on a
`TriangulationFactor` of the same concrete calibration type. -/
def NonlinearFactor.asThis : NonlinearFactor → Option TriangulationFactor
  | .tri f => some f
  | .triOtherCalibration _ => none
  | .otherFactor _ _ => none

/-- `TriangulationFactor::equals(p, tol)`: false when the dynamic cast
fails, otherwise the conjunction of base equality, camera equality and
measurement equality within the tolerance. -/
def TriangulationFactor.equals (f : TriangulationFactor)
    (p : NonlinearFactor) (tol : ℚ) : Bool :=
  match p.asThis with
  | none => false
  | some e =>
    baseEquals f e tol && Camera.close f.camera e.camera tol &&
      Point2.close f.measured e.measured tol

/-- The default `equals` tolerance, `1e-9`. -/
def defaultTol : ℚ := 1 / 1000000000

/-- One live factor object: its immutable data together with its own
mutable scratch buffers. -/
structure Instance where
  factor : TriangulationFactor
  scratch : Scratch

/-- A store of live factor objects addressed by object identity,
making aliasing between instances expressible. -/
def Store := Nat → Option Instance

/-- Update the instance at one identity. -/
def Store.set (s : Store) (i : Nat) (v : Instance) : Store :=
  fun j => if j = i then some v else s j

/-- `clone()` through the store: `new This(*this)` copy-constructs a
fresh object at an unused identity `j`, value-copying the factor data
and the current scratch contents into independent storage. -/
def Store.clone (s : Store) (i j : Nat) : Store :=
  match s i with
  | some inst => Store.set s j ⟨inst.factor, inst.scratch⟩
  | none => s

/-- `linearize` invoked on the object at identity `i`: runs the pure
linearization on that object's data and scratch and writes the updated
scratch back to that object alone. -/
def Store.linearizeAt (s : Store) (i : Nat) (x : Values) :
    Except LinearizeError (Option JacobianFactor) × Store :=
  match s i with
  | some inst =>
    let r := inst.factor.linearize inst.scratch x
    (r.1, Store.set s i ⟨inst.factor, r.2⟩)
  | none => (.ok none, s)

/-- Modelled from the spec: the scenario camera at the origin looking
down +z with unit focal length and principal point (0, 0):
`pixel = (x/z, y/z)` with Jacobian
`[[1/z, 0, -x/z²], [0, 1/z, -y/z²]]`; projection fails with a
`CheiralityException` when the point is not strictly in front of the
image plane. -/
def simpleCamera : Camera where
  project := fun p =>
    if p.z ≤ 0 then .error ⟨"Cheirality Exception"⟩
    else
      .ok (⟨p.x / p.z, p.y / p.z⟩,
        ⟨1 / p.z, 0, -(p.x / (p.z * p.z)), 0, 1 / p.z, -(p.y / (p.z * p.z))⟩)
  fx := 1
  params := [0, 0, 0, 1, 1, 0, 0]

/-- A concrete 2-dimensional noise model whose whitening is the
identity (the whitening transform itself is a black box; concrete
instances only need some 2-dimensional model). -/
def unitNoise : NoiseModel where
  dim := 2
  params := [1, 1]
  whitenSystem := fun A b => (A, b)

/-- A concrete 3-dimensional noise model, exercising the constructor's
dimension check. -/
def noise3 : NoiseModel where
  dim := 3
  params := [1, 1, 1]
  whitenSystem := fun A b => (A, b)

/-- A concrete factor: scenario camera, measurement (0, 0), no noise
model, key 7, both cheirality flags at their defaults. -/
def cf : TriangulationFactor :=
  ⟨simpleCamera, ⟨0, 0⟩, none, 7, false, false, defaultActive⟩

/-- A concrete factor with `throwCheirality` and `verboseCheirality`
both set. -/
def cfThrow : TriangulationFactor :=
  ⟨simpleCamera, ⟨0, 0⟩, none, 7, true, true, defaultActive⟩

/-- A concrete factor carrying the 2-dimensional noise model. -/
def cfNoise : TriangulationFactor :=
  ⟨simpleCamera, ⟨0, 0⟩, some unitNoise, 7, false, false, defaultActive⟩

/-- A concrete factor whose externally defined activity predicate
reports every assignment inactive. -/
def cfInactive : TriangulationFactor :=
  ⟨simpleCamera, ⟨0, 0⟩, none, 7, false, false, fun _ => false⟩

/-- A concrete one-object store holding `cf` with fresh scratch at
identity 0. -/
def store0 : Store :=
  fun n => if n = 0 then some ⟨cf, Scratch.init⟩ else none

/-- Componentwise closeness is reflexive for a nonnegative tolerance. -/
theorem listClose_self (l : List ℚ) (tol : ℚ) (h : 0 ≤ tol) :
    listClose l l tol = true := by
  induction l with
  | nil => rfl
  | cons a as ih => simp [listClose, ih, sub_self, abs_zero, h]

/-- `equals` accepts a `TriangulationFactor` holding identical data, for
any nonnegative tolerance (reflexivity of the tolerance comparisons). -/
theorem equals_tri_self (f : TriangulationFactor) (tol : ℚ) (h : 0 ≤ tol) :
    f.equals (.tri f) tol = true := by
  unfold TriangulationFactor.equals NonlinearFactor.asThis
  simp only [baseEquals, Camera.close, Point2.close, listClose_self _ _ h,
    sub_self, abs_zero]
  cases hm : f.noiseModel with
  | none => simp [optNoiseClose, h]
  | some m =>
    simp [optNoiseClose, NoiseModel.close, listClose_self _ _ h, h]

/-- C2: on every 3D point for which projection succeeds, `evaluateError`
returns the 2-component vector `project(point) - measured` and, when a
Jacobian is requested, hands back the projection capability's 2×3
derivative unchanged (not sign-flipped). -/
theorem C2_evaluate_success (f : TriangulationFactor) (point : Point3)
    (pixel : Point2) (H : Mat23) (req : Bool)
    (hp : f.camera.project point = .ok (pixel, H)) :
    (f.evaluateError point req).result =
        .ok ((pixel.sub f.measured).toVector) ∧
    (req = true → (f.evaluateError point req).jacobian = some H) := by
  simp [TriangulationFactor.evaluateError, hp]

/-- Witness for C2: scenario camera, measurement (0, 0), point
(1, 1, 5): the residual is (1/5, 1/5) and the requested Jacobian is the
projection derivative at that point, unchanged. -/
theorem C2_witness :
    (cf.evaluateError ⟨1, 1, 5⟩ true).result = .ok ⟨1/5, 1/5⟩ ∧
    (cf.evaluateError ⟨1, 1, 5⟩ true).jacobian =
      some ⟨1/5, 0, -(1/25), 0, 1/5, -(1/25)⟩ := by
  have hp : cf.camera.project ⟨1, 1, 5⟩ =
      .ok (⟨1/5, 1/5⟩, ⟨1/5, 0, -(1/25), 0, 1/5, -(1/25)⟩) := by
    simp [cf, simpleCamera]
    norm_num
  have h := C2_evaluate_success cf ⟨1, 1, 5⟩ ⟨1/5, 1/5⟩
    ⟨1/5, 0, -(1/25), 0, 1/5, -(1/25)⟩ true hp
  refine ⟨?_, h.2 rfl⟩
  rw [h.1]
  simp [cf, Point2.sub, Point2.toVector]

/-- C3: on every point for which projection reports a cheirality
failure, with `throwCheirality` at its default `false`, `evaluateError`
returns the residual with both components equal to `2 * fx` and, when a
Jacobian is requested, sets it to the exact zero 2×3 matrix. -/
theorem C3_behind_camera_fallback (f : TriangulationFactor)
    (point : Point3) (e : CheiralityException) (req : Bool)
    (hthrow : f.throwCheirality = false)
    (hp : f.camera.project point = .error e) :
    (f.evaluateError point req).result =
        .ok ⟨2 * f.camera.fx, 2 * f.camera.fx⟩ ∧
    (req = true → (f.evaluateError point req).jacobian = some Mat23.zero) := by
  simp [TriangulationFactor.evaluateError, hp, hthrow]

/-- Witness for C3: scenario camera, point (0, 0, -5) behind the
camera: residual (2, 2) = 2 · fx with fx = 1, and the Jacobian is the
zero matrix. -/
theorem C3_witness :
    (cf.evaluateError ⟨0, 0, -5⟩ true).result = .ok ⟨2, 2⟩ ∧
    (cf.evaluateError ⟨0, 0, -5⟩ true).jacobian = some Mat23.zero := by
  have hp : cf.camera.project ⟨0, 0, -5⟩ =
      .error ⟨"Cheirality Exception"⟩ := by
    simp [cf, simpleCamera]
  have h := C3_behind_camera_fallback cf ⟨0, 0, -5⟩
    ⟨"Cheirality Exception"⟩ true rfl hp
  refine ⟨?_, h.2 rfl⟩
  rw [h.1]
  norm_num [cf, simpleCamera]

/-- C4: with `throwCheirality = true`, evaluating a behind-camera point
propagates the same `CheiralityException` to the caller instead of
returning a residual, and the policy steps preceding the rethrow still
take effect: a requested Jacobian ends up zeroed, and with
`verboseCheirality` also set the diagnostic line naming the variable is
emitted. -/
theorem C4_rethrow (f : TriangulationFactor) (point : Point3)
    (e : CheiralityException) (req : Bool)
    (hthrow : f.throwCheirality = true)
    (hp : f.camera.project point = .error e) :
    (f.evaluateError point req).result = .error e ∧
    (req = true → (f.evaluateError point req).jacobian = some Mat23.zero) ∧
    (f.verboseCheirality = true →
      (f.evaluateError point req).log = [cheiralityLogMessage e f.key]) := by
  simp [TriangulationFactor.evaluateError, hp, hthrow]

/-- Witness for C4: the throwing, verbose factor at the behind-camera
point (0, 0, -5): the exception propagates, the Jacobian is zeroed and
the diagnostic line names landmark 7. -/
theorem C4_witness :
    (cfThrow.evaluateError ⟨0, 0, -5⟩ true).result =
        .error ⟨"Cheirality Exception"⟩ ∧
    (cfThrow.evaluateError ⟨0, 0, -5⟩ true).jacobian = some Mat23.zero ∧
    (cfThrow.evaluateError ⟨0, 0, -5⟩ true).log =
        ["Cheirality Exception: Landmark 7 moved behind camera"] := by
  have hp : cfThrow.camera.project ⟨0, 0, -5⟩ =
      .error ⟨"Cheirality Exception"⟩ := by
    simp [cfThrow, simpleCamera]
  have h := C4_rethrow cfThrow ⟨0, 0, -5⟩ ⟨"Cheirality Exception"⟩ true rfl hp
  refine ⟨h.1, h.2.1 rfl, ?_⟩
  rw [h.2.2 rfl]
  rfl

/-- Counterexample to C1 as stated: with both flags at their defaults,
`linearize` on a values assignment placing the point behind the camera
does not return a value — the `CheiralityException` from the projection
call propagates out (there is no handler in `linearize`). -/
theorem C1_counterexample :
    (cf.linearize Scratch.init [(7, ⟨0, 0, -5⟩)]).1 =
      .error (.cheirality ⟨"Cheirality Exception"⟩) := by
  simp [cf, simpleCamera, TriangulationFactor.linearize, defaultActive,
    Values.at?]

/-- C1 as amended: with both flags at their defaults, a behind-camera
point never aborts `evaluateError` — it completes and returns a value;
`linearize`, by contrast, propagates the projection capability's
`CheiralityException` unchanged. -/
theorem C1_default_flags_degenerate (f : TriangulationFactor)
    (point : Point3) (e : CheiralityException) (req : Bool)
    (scr : Scratch) (x : Values)
    (hthrow : f.throwCheirality = false)
    (hp : f.camera.project point = .error e) :
    (∃ v, (f.evaluateError point req).result = .ok v) ∧
    (f.active x = true → Values.at? x f.key = some point →
      (f.linearize scr x).1 = .error (.cheirality e)) := by
  constructor
  · refine ⟨⟨2 * f.camera.fx, 2 * f.camera.fx⟩, ?_⟩
    simp [TriangulationFactor.evaluateError, hp, hthrow]
  · intro hact hat
    simp [TriangulationFactor.linearize, hact, hat, hp]

/-- Witness for C1 (amended): the default-flag factor at the
behind-camera point (0, 0, -5): `evaluateError` returns a value while
`linearize` propagates the cheirality error. -/
theorem C1_witness :
    (∃ v, (cf.evaluateError ⟨0, 0, -5⟩ true).result = .ok v) ∧
    (cf.linearize Scratch.init [(7, ⟨0, 0, -5⟩)]).1 =
      .error (.cheirality ⟨"Cheirality Exception"⟩) := by
  have h := C1_default_flags_degenerate cf ⟨0, 0, -5⟩
    ⟨"Cheirality Exception"⟩ true Scratch.init [(7, ⟨0, 0, -5⟩)] rfl
    (by simp [cf, simpleCamera])
  exact ⟨h.1, h.2 rfl rfl⟩

/-- C5: on the active path with the key present and projection
succeeding, `linearize` builds `b = -(project(point) - measured)` and
`A` equal to the projection Jacobian, applies the noise model's
whitening to `(A, b)` exactly when a model is present, and returns a
`JacobianFactor` tagged with the factor's single key carrying that
`(A, b)`. -/
theorem C5_linearize_success (f : TriangulationFactor) (scr : Scratch)
    (x : Values) (point : Point3) (pixel : Point2) (H : Mat23)
    (hact : f.active x = true)
    (hat : Values.at? x f.key = some point)
    (hp : f.camera.project point = .ok (pixel, H)) :
    (f.noiseModel = none →
      (f.linearize scr x).1 =
        .ok (some ⟨[f.key], H, ((pixel.sub f.measured).toVector).neg⟩)) ∧
    (∀ m, f.noiseModel = some m →
      (f.linearize scr x).1 =
        .ok (some ⟨[f.key],
          (m.whitenSystem H ((pixel.sub f.measured).toVector).neg).1,
          (m.whitenSystem H ((pixel.sub f.measured).toVector).neg).2⟩)) := by
  constructor
  · intro hm
    simp [TriangulationFactor.linearize, hact, hat, hp, applyNoise, hm]
  · intro m hm
    simp [TriangulationFactor.linearize, hact, hat, hp, applyNoise, hm]

/-- Witness for C5: the noise-model-carrying factor at point (1, 1, 5):
the returned factor is keyed by 7 and carries the (identity-whitened)
Jacobian and `b = -(1/5, 1/5)`. -/
theorem C5_witness :
    (cfNoise.linearize Scratch.init [(7, ⟨1, 1, 5⟩)]).1 =
      .ok (some ⟨[7],
        ⟨1/5, 0, -(1/25), 0, 1/5, -(1/25)⟩, ⟨-(1/5), -(1/5)⟩⟩) := by
  have hp : cfNoise.camera.project ⟨1, 1, 5⟩ =
      .ok (⟨1/5, 1/5⟩, ⟨1/5, 0, -(1/25), 0, 1/5, -(1/25)⟩) := by
    simp [cfNoise, simpleCamera]
    norm_num
  have h := C5_linearize_success cfNoise Scratch.init [(7, ⟨1, 1, 5⟩)]
    ⟨1, 1, 5⟩ ⟨1/5, 1/5⟩ ⟨1/5, 0, -(1/25), 0, 1/5, -(1/25)⟩ rfl rfl hp
  rw [h.2 unitNoise rfl]
  simp [cfNoise, unitNoise, Point2.sub, Point2.toVector, Vec2.neg]

/-- C6: whenever the externally defined activity predicate reports the
factor inactive on a values assignment, `linearize` returns the empty
result (no linear factor), leaving the scratch buffers untouched. -/
theorem C6_inactive_returns_empty (f : TriangulationFactor)
    (scr : Scratch) (x : Values) (h : f.active x = false) :
    f.linearize scr x = (.ok none, scr) := by
  simp [TriangulationFactor.linearize, h]

/-- Witness for C6: the always-inactive factor on the empty values
assignment: `linearize` returns no factor and does not touch the
scratch state. -/
theorem C6_witness :
    cfInactive.linearize Scratch.init [] = (.ok none, Scratch.init) :=
  C6_inactive_returns_empty cfInactive Scratch.init [] rfl

/-- Counterexample to C7 as stated: a values store in which the
factor's key is absent on which `linearize` does not fail — the factor
is reported inactive, so the empty result is returned before any
lookup. -/
theorem C7_counterexample :
    Values.at? [] cfInactive.key = none ∧
    (cfInactive.linearize Scratch.init []).1 = .ok none :=
  ⟨rfl, rfl⟩

/-- C7 as amended: for every values store on which the factor is
active and in which the factor's key is absent, `linearize` fails with
the values store's lookup error, propagated unchanged. -/
theorem C7_missing_key_fails (f : TriangulationFactor) (scr : Scratch)
    (x : Values) (hact : f.active x = true)
    (hat : Values.at? x f.key = none) :
    (f.linearize scr x).1 = .error (.valuesKeyNotFound f.key) := by
  simp [TriangulationFactor.linearize, hact, hat]

/-- Witness for C7 (amended): the default factor (active everywhere) on
the empty values store: `linearize` propagates the lookup failure for
key 7. -/
theorem C7_witness :
    (cf.linearize Scratch.init []).1 = .error (.valuesKeyNotFound 7) :=
  C7_missing_key_fails cf Scratch.init [] rfl rfl

/-- C8: construction fails with the `invalid_argument` error exactly
when a noise model is supplied whose dimension is not 2; otherwise it
succeeds, producing the object with the given camera, measurement,
noise model, key and flags (and, on failure, no object at all). -/
theorem C8_constructor_dimension_check (camera : Camera)
    (measured : Point2) (model : Option NoiseModel) (k : Key)
    (t v : Bool) :
    ((∃ msg, TriangulationFactor.make camera measured model k t v =
        .error (.invalidArgument msg)) ↔
      (∃ m, model = some m ∧ m.dim ≠ 2)) ∧
    (∀ f, TriangulationFactor.make camera measured model k t v = .ok f →
      f.camera = camera ∧ f.measured = measured ∧ f.noiseModel = model ∧
      f.key = k ∧ f.throwCheirality = t ∧ f.verboseCheirality = v) := by
  cases model with
  | none =>
    constructor
    · simp [TriangulationFactor.make]
    · intro f hf
      simp only [TriangulationFactor.make, Except.ok.injEq] at hf
      subst hf
      exact ⟨rfl, rfl, rfl, rfl, rfl, rfl⟩
  | some m =>
    by_cases hd : m.dim = 2
    · constructor
      · simp [TriangulationFactor.make, hd]
      · intro f hf
        simp only [TriangulationFactor.make, hd, ne_eq,
          not_true_eq_false, if_false, ite_false, Except.ok.injEq] at hf
        subst hf
        exact ⟨rfl, rfl, rfl, rfl, rfl, rfl⟩
    · constructor
      · simp [TriangulationFactor.make, hd]
      · intro f hf
        simp [TriangulationFactor.make, hd] at hf

/-- Witness for C8: supplying the 3-dimensional noise model makes
construction fail with the `invalid_argument` error. -/
theorem C8_witness :
    ∃ msg, TriangulationFactor.make simpleCamera ⟨0, 0⟩ (some noise3) 7
      false false = .error (.invalidArgument msg) :=
  (C8_constructor_dimension_check simpleCamera ⟨0, 0⟩ (some noise3) 7
    false false).1.mpr ⟨noise3, rfl, by decide⟩

/-- C9: cloning the object at identity `i` to a fresh identity `j`
value-copies the factor data and the scratch contents into independent
storage; the clone compares `equals` to the original at the default
tolerance 1e-9, and linearizing the clone leaves the original object —
its scratch buffers included — unchanged. -/
theorem C9_clone_independent (s : Store) (i j : Nat) (inst : Instance)
    (x : Values) (hi : s i = some inst) (hij : i ≠ j) :
    (Store.clone s i j) j = some ⟨inst.factor, inst.scratch⟩ ∧
    inst.factor.equals (.tri inst.factor) defaultTol = true ∧
    ((Store.clone s i j).linearizeAt j x).2 i = s i := by
  have hclone : Store.clone s i j =
      Store.set s j ⟨inst.factor, inst.scratch⟩ := by
    simp [Store.clone, hi]
  refine ⟨?_, equals_tri_self _ _ (by norm_num [defaultTol]), ?_⟩
  · rw [hclone]
    simp [Store.set]
  · rw [hclone]
    simp [Store.linearizeAt, Store.set, hij]

/-- Witness for C9: cloning the one-object store's factor to identity 1
and linearizing the clone at a valid point leaves the original object
at identity 0 untouched, while the clone equals the original. -/
theorem C9_witness :
    (Store.clone store0 0 1) 1 = some ⟨cf, Scratch.init⟩ ∧
    cf.equals (.tri cf) defaultTol = true ∧
    ((Store.clone store0 0 1).linearizeAt 1 [(7, ⟨0, 0, 5⟩)]).2 0 =
      store0 0 :=
  C9_clone_independent store0 0 1 ⟨cf, Scratch.init⟩ [(7, ⟨0, 0, 5⟩)]
    rfl (by decide)

/-- C10: `equals` is false, for every tolerance, whenever the other
factor is not a `TriangulationFactor` of the same concrete calibration
type (the dynamic cast fails), regardless of the other factor's keys
and noise model. -/
theorem C10_equals_requires_same_type (f : TriangulationFactor)
    (p : NonlinearFactor) (tol : ℚ) (h : p.asThis = none) :
    f.equals p tol = false := by
  simp [TriangulationFactor.equals, h]

/-- Witness for C10: a `TriangulationFactor` of a different calibration
type holding data identical to `cf` still compares unequal. -/
theorem C10_witness :
    cf.equals (.triOtherCalibration cf) 1 = false :=
  C10_equals_requires_same_type cf (.triOtherCalibration cf) 1 rfl
